import Mathlib

/-!
Verification of the `closer` deferred-cleanup registry (src/firmware/main/closer.h)
and the staged initializer built on it (src/firmware/main/main.c).

Shallow embedding conventions:
- A cleanup function pointer (`closer_fn_t`) is modelled as an opaque identifier
  of type `Nat`; a possibly-NULL function pointer is `Option Nat` (`none` = NULL).
- The singly linked stack of `closer_item_t` nodes is a `List (Option Nat)` whose
  head is the most recently pushed item (`h->top`), each entry being the node's
  stored `fn` field (the list keeps `Option` so that the hypothetical NULL-fn
  state handled by `closer_close`'s skip branch is representable).
- A possibly-NULL `closer_handle_t` is `Option closer_t`.
- `malloc`/`calloc` outcomes are explicit `Bool` oracles passed to the operation.
- Invoking the registered actions is modelled by returning the list of invoked
  action identifiers in invocation order (the actions themselves are `void(void)`
  and affect nothing the registry observes).
-/

/-- Result codes of `esp_err_t` as used by this repository. `err` stands for any
other non-`ESP_OK` error code returned by an external collaborator call. -/
inductive EspErr where
  | ok
  | invalidArg
  | noMem
  | fail
  | timeout
  | nvsNoFreePages
  | nvsNewVersionFound
  | err
deriving Repr, DecidableEq

/-- `struct closer_t`: its single field `top` points to the head of the singly
linked item stack; here the whole chain is the list (head = most recent). -/
structure closer_t where
  top : List (Option Nat)
deriving Repr, DecidableEq

/-- `closer_create`: rejects a NULL `out` pointer, reports `calloc` failure, and
otherwise yields a zero-initialised registry (`top = NULL`, i.e. empty).
`outNonNull` models whether the caller passed a non-NULL `out`; `allocOk`
models whether `calloc` succeeds. -/
def closer_create (outNonNull : Bool) (allocOk : Bool) : EspErr × Option closer_t :=
  if !outNonNull then (.invalidArg, none)
  else if !allocOk then (.noMem, none)
  else (.ok, some ⟨[]⟩)

/-- `closer_add`: rejects a NULL handle or NULL `fn`, reports `malloc` failure
leaving the registry untouched, and otherwise pushes a node holding `fn` on top.
Returns the result code and the registry state after the call. -/
def closer_add (h : Option closer_t) (fn : Option Nat) (allocOk : Bool) :
    EspErr × Option closer_t :=
  match h, fn with
  | none, _ => (.invalidArg, none)
  | some c, none => (.invalidArg, some c)
  | some c, some f =>
    if !allocOk then (.noMem, some c)
    else (.ok, some ⟨some f :: c.top⟩)

/-- The `while (item)` loop body of `closer_close`: walks the chain from `top`,
invokes `item->fn` when it is non-NULL and skips it otherwise, freeing each node.
Returns the identifiers of the invoked actions in invocation order. -/
def closeLoop : List (Option Nat) → List Nat
  | [] => []
  | some f :: rest => f :: closeLoop rest
  | none :: rest => closeLoop rest

/-- `closer_close`: a NULL handle returns immediately; otherwise the loop runs
and `h->top` is set to NULL. Returns the invoked actions (in order) and the
registry state after the call. -/
def closer_close (h : Option closer_t) : List Nat × Option closer_t :=
  match h with
  | none => ([], none)
  | some c => (closeLoop c.top, some ⟨[]⟩)

/-- `closer_destroy`: a NULL handle only logs a warning and returns; otherwise
`closer_close(h)` runs and then `free(h)` invalidates the handle (`none`).
Returns the invoked actions and the (freed) handle. -/
def closer_destroy (h : Option closer_t) : List Nat × Option closer_t :=
  match h with
  | none => ([], none)
  | some c => (closeLoop c.top, none)

/-- A sequence of `closer_add` calls for the (non-NULL) actions `fns`, in order,
each with a succeeding allocation. -/
def addAll (h : Option closer_t) (fns : List Nat) : Option closer_t :=
  match fns with
  | [] => h
  | f :: rest => addAll (closer_add h (some f) true).2 rest

theorem closeLoop_map_some (l : List Nat) : closeLoop (l.map some) = l := by
  induction l with
  | nil => rfl
  | cons f rest ih => simp [closeLoop, ih]

theorem closeLoop_append (l₁ l₂ : List (Option Nat)) :
    closeLoop (l₁ ++ l₂) = closeLoop l₁ ++ closeLoop l₂ := by
  induction l₁ with
  | nil => rfl
  | cons x rest ih => cases x <;> simp [closeLoop, ih]

theorem closeLoop_map_some_reverse (l : List Nat) :
    closeLoop ((l.map some).reverse) = l.reverse := by
  induction l with
  | nil => rfl
  | cons f rest ih => simp [closeLoop_append, closeLoop, ih]

theorem addAll_some (c : closer_t) (fns : List Nat) :
    addAll (some c) fns = some ⟨(fns.reverse.map some) ++ c.top⟩ := by
  induction fns generalizing c with
  | nil => simp [addAll]
  | cons f rest ih =>
    simp [addAll, closer_add, ih]

theorem closeLoop_filterMap (l : List (Option Nat)) : closeLoop l = l.filterMap id := by
  induction l with
  | nil => rfl
  | cons x rest ih => cases x <;> simp [closeLoop, ih]

/-- C1: starting from any registry, `N` successful `closer_add` calls for the
actions `fns` (in registration order) followed by one `closer_close` invoke the
registered actions in exactly reverse registration order — `fns.reverse`, each
exactly once, before whatever was already pending — and leave the pending
sequence empty. -/
theorem closer_close_reverse_order (c : closer_t) (fns : List Nat) :
    closer_close (addAll (some c) fns) =
      (fns.reverse ++ closeLoop c.top, some ⟨[]⟩) := by
  rw [addAll_some]
  simp [closer_close, closeLoop_append, closeLoop_map_some, closeLoop_map_some_reverse]

/-- C2: `closer_add` fails with `ESP_ERR_INVALID_ARG` when the handle or the
action is NULL, and with `ESP_ERR_NO_MEM` when the node allocation fails; in
every failure case the registry state is exactly what it was before the call,
so a subsequent `closer_close` behaves exactly as it would have without the
failed call. -/
theorem closer_add_failure_preserves (c : closer_t) (fn : Option Nat) (a : Bool) (f : Nat) :
    closer_add none fn a = (.invalidArg, none) ∧
    closer_add (some c) none a = (.invalidArg, some c) ∧
    closer_add (some c) (some f) false = (.noMem, some c) ∧
    closer_close (closer_add (some c) (some f) false).2 = closer_close (some c) ∧
    closer_close (closer_add (some c) none a).2 = closer_close (some c) := by
  refine ⟨rfl, rfl, rfl, rfl, rfl⟩

/-- C5: `closer_close` is idempotent — closing an empty registry invokes no
action and leaves it empty, and a second close right after a close invokes no
action and changes nothing (close after close equals a single close). -/
theorem closer_close_idempotent (c : closer_t) :
    closer_close (some ⟨[]⟩) = ([], some ⟨[]⟩) ∧
    (closer_close (closer_close (some c)).2).1 = [] ∧
    (closer_close (closer_close (some c)).2).2 = (closer_close (some c)).2 := by
  refine ⟨rfl, rfl, rfl⟩

/-- C6: the registry is reusable after close — after a `closer_close`,
registering the actions `fns` and closing again invokes exactly `fns.reverse`
(only the newly registered actions, in their own reverse order), so each close
drains exactly what was pending at the time of that call; in total the first
close invokes the old pending actions and the second invokes the new ones. -/
theorem closer_reusable_after_close (c : closer_t) (fns : List Nat) :
    closer_close (addAll (closer_close (some c)).2 fns) = (fns.reverse, some ⟨[]⟩) ∧
    (closer_close (some c)).1 ++ (closer_close (addAll (closer_close (some c)).2 fns)).1 =
      closeLoop c.top ++ fns.reverse := by
  constructor
  · show closer_close (addAll (some ⟨[]⟩) fns) = (fns.reverse, some ⟨[]⟩)
    rw [addAll_some]
    simp [closer_close, closeLoop_append, closeLoop_map_some_reverse, closeLoop]
  · show closeLoop c.top ++ (closer_close (addAll (some ⟨[]⟩) fns)).1 = _
    rw [addAll_some]
    simp [closer_close, closeLoop_append, closeLoop_map_some_reverse, closeLoop]

/-- C7: `closer_destroy` performs a close — invoking every pending action, with
no failure information to propagate — and then frees the registry's storage
(the handle becomes invalid); called with a NULL handle it invokes no action
and returns without fault. -/
theorem closer_destroy_spec (c : closer_t) :
    closer_destroy (some c) = ((closer_close (some c)).1, none) ∧
    closer_destroy none = ([], none) := by
  refine ⟨rfl, rfl⟩

/-- C8: during `closer_close`, a NULL action already present in the pending
sequence is skipped rather than invoked — removing it from the sequence does
not change the invoked actions — and the non-NULL actions are still invoked in
their stack order (most recently registered first). -/
theorem closer_close_skips_null (pre post : List (Option Nat)) :
    (closer_close (some ⟨pre ++ none :: post⟩)).1 =
      (closer_close (some ⟨pre ++ post⟩)).1 ∧
    (closer_close (some ⟨pre ++ none :: post⟩)).1 =
      (pre ++ post).filterMap id := by
  constructor
  · simp [closer_close, closeLoop_append, closeLoop]
  · simp [closer_close, closeLoop_append, closeLoop, closeLoop_filterMap]

/-- The registry states reachable through the public operations: any outcome of
`closer_create`, followed by arbitrary `closer_add` (with any action argument
and any allocation outcome), `closer_close` and `closer_destroy` calls. -/
inductive Reachable : Option closer_t → Prop where
  | created : ∀ o a, Reachable (closer_create o a).2
  | added : ∀ h fn a, Reachable h → Reachable (closer_add h fn a).2
  | closed : ∀ h, Reachable h → Reachable (closer_close h).2
  | destroyed : ∀ h, Reachable h → Reachable (closer_destroy h).2

/-- C9: invariant of every reachable registry state — no stored action is NULL
(`closer_create` yields an empty registry and `closer_add` rejects a NULL
action before mutating), so the NULL-skip branch of `closer_close` is never
taken: on reachable states the close loop invokes exactly as many actions as
there are pending nodes. -/
theorem closer_reachable_no_null (h : Option closer_t) (hr : Reachable h) :
    ∀ c : closer_t, h = some c →
      (none ∉ c.top ∧ (closeLoop c.top).length = c.top.length) := by
  induction hr with
  | created o a =>
    intro c hc
    have hcc : c = ⟨[]⟩ := by
      cases o <;> cases a <;> simp [closer_create] at hc
      simp [← hc]
    subst hcc
    simp [closeLoop]
  | added h fn a _ ih =>
    intro c hc
    match h, fn with
    | none, fn => simp [closer_add] at hc
    | some c₀, none =>
      simp only [closer_add, Option.some.injEq] at hc
      exact ih c₀ rfl |>.imp (fun hx => hc ▸ hx) (fun hx => hc ▸ hx)
    | some c₀, some f =>
      obtain ⟨h₁, h₂⟩ := ih c₀ rfl
      cases a <;> (simp [closer_add] at hc; subst hc; simp_all [closeLoop])
  | closed h _ ih =>
    intro c hc
    match h with
    | none => simp [closer_close] at hc
    | some c₀ =>
      simp only [closer_close, Option.some.injEq] at hc
      subst hc
      simp [closeLoop]
  | destroyed h _ ih =>
    intro c hc
    match h with
    | none => simp [closer_destroy] at hc
    | some c₀ => simp [closer_destroy] at hc

/-- Witness for C9 at a concrete reachable state: create, then add action `3`
(allocation succeeding), reaching `some ⟨[some 3]⟩`. -/
theorem closer_reachable_no_null_witness :
    none ∉ (closer_t.mk [some 3]).top ∧
      (closeLoop (closer_t.mk [some 3]).top).length = (closer_t.mk [some 3]).top.length :=
  closer_reachable_no_null (some ⟨[some 3]⟩)
    (Reachable.added (closer_create true true).2 (some 3) true (Reachable.created true true))
    ⟨[some 3]⟩ rfl

/-- C10: `closer_close` called with a NULL handle is a safe no-op — it invokes
no action and modifies no state. -/
theorem closer_close_null_noop : closer_close none = ([], none) := rfl

/-!
Embedding of the staged initializer in src/firmware/main/main.c.

External collaborator calls (ESP-IDF, FreeRTOS, mDNS, httpd) are modelled by an
environment `Env` recording the result each call would return; repository code
(`wifi_init`, `nvs_init`, `wifi_connect`, `mdns_start`, `start_webserver`,
`app_logic`, `app_main`) is translated statement by statement, with
`ESP_RETURN_ON_ERROR(x, ...)` becoming `if x ≠ .ok then (x, st) else ...`.
The cleanup function pointers passed to `DEFER` are the action identifiers
below. `AppState` carries the global `s_closer`, the remaining `malloc`
outcomes for `closer_add` (an empty list means every allocation succeeds), and
an instrumentation trace `regs` of the successfully registered actions in
registration (= acquisition) order.
-/

/-- Action identifier for `esp_netif_deinit`. -/
def esp_netif_deinit : Nat := 0

/-- Action identifier for `esp_event_loop_delete_default`. -/
def esp_event_loop_delete_default : Nat := 1

/-- Action identifier for `esp_wifi_deinit`. -/
def esp_wifi_deinit : Nat := 2

/-- Action identifier for `sta_netif_destroy`. -/
def sta_netif_destroy : Nat := 3

/-- Action identifier for `delete_default_wifi_driver_and_handlers`. -/
def delete_default_wifi_driver_and_handlers : Nat := 4

/-- Action identifier for `esp_wifi_stop`. -/
def esp_wifi_stop : Nat := 5

/-- Action identifier for `mdns_free`. -/
def mdns_free : Nat := 6

/-- Action identifier for `stop_webserver`. -/
def stop_webserver : Nat := 7

/-- Results of the external collaborator calls made during one initialization
attempt, plus the `malloc` outcomes consumed by `closer_add` inside `DEFER`
(in call order; once `allocs` is exhausted every allocation succeeds). -/
structure Env where
  make_etag : EspErr
  gpio_config : EspErr
  gpio_set_level : EspErr
  nvs_flash_init1 : EspErr
  nvs_flash_erase : EspErr
  nvs_flash_init2 : EspErr
  esp_netif_init : EspErr
  esp_event_loop_create_default : EspErr
  esp_wifi_init : EspErr
  esp_netif_create_wifi_ok : Bool
  esp_wifi_set_default_wifi_sta_handlers : EspErr
  esp_wifi_set_storage : EspErr
  esp_wifi_set_mode : EspErr
  esp_wifi_start : EspErr
  esp_wifi_get_max_tx_power : EspErr
  esp_wifi_set_config : EspErr
  esp_event_handler_register : EspErr
  esp_wifi_connect : EspErr
  got_ip_within_timeout : Bool
  mdns_init : EspErr
  mdns_hostname_set : EspErr
  mdns_instance_name_set : EspErr
  mdns_service_add : EspErr
  httpd_start : EspErr
  httpd_register_root : EspErr
  httpd_register_index_html : EspErr
  httpd_register_api_led_on : EspErr
  httpd_register_api_led_off : EspErr
  allocs : List Bool
deriving Repr, DecidableEq

/-- Mutable state of the application: the global `s_closer`, the remaining
allocation outcomes, and the trace of successfully registered actions in
registration order (instrumentation only). -/
structure AppState where
  s_closer : Option closer_t
  allocs : List Bool
  regs : List Nat
deriving Repr, DecidableEq

/-- Consume the next allocation outcome (an exhausted list means success). -/
def takeAlloc : List Bool → Bool × List Bool
  | [] => (true, [])
  | b :: rest => (b, rest)

/-- `DEFER(fn)` = `CLOSER_DEFER(s_closer, fn)`: calls `closer_add` and
discards its result (closer.h: "register a cleanup function without checking
errors"). The `regs` trace records the action only when the add succeeded. -/
def DEFER (fn : Nat) (st : AppState) : AppState :=
  let t := takeAlloc st.allocs
  let r := closer_add st.s_closer (some fn) t.1
  { s_closer := r.2, allocs := t.2,
    regs := if r.1 = .ok then st.regs ++ [fn] else st.regs }

/-- `gpio_init`: builds an `io_conf` and returns `gpio_config`'s result. -/
def gpio_init (env : Env) : EspErr := env.gpio_config

/-- `nvs_init`: `nvs_flash_init`, with an erase-and-retry when flash reports
no free pages or a new version. Registers nothing with the closer. -/
def nvs_init (env : Env) : EspErr :=
  let ret := env.nvs_flash_init1
  if ret = .nvsNoFreePages ∨ ret = .nvsNewVersionFound then
    if env.nvs_flash_erase ≠ .ok then env.nvs_flash_erase
    else env.nvs_flash_init2
  else ret

/-- `wifi_connect`: set config, subscribe to the got-IP event, connect, wait
for the notification with a timeout, then unsubscribe (the cleanup label).
Registers nothing with the closer; the FreeRTOS notification wait is modelled
by the `got_ip_within_timeout` outcome. -/
def wifi_connect (env : Env) : EspErr :=
  if env.esp_wifi_set_config ≠ .ok then env.esp_wifi_set_config
  else if env.esp_event_handler_register ≠ .ok then env.esp_event_handler_register
  else if env.esp_wifi_connect ≠ .ok then env.esp_wifi_connect
  else if !env.got_ip_within_timeout then .timeout
  else .ok

/-- `wifi_init`: the step chain of main.c lines 83–119, each
`ESP_RETURN_ON_ERROR` followed by its `DEFER` (a NULL return from
`esp_netif_create_wifi` yields `ESP_FAIL`). -/
def wifi_init (env : Env) (st : AppState) : EspErr × AppState :=
  if env.esp_netif_init ≠ .ok then (env.esp_netif_init, st) else
  let st := DEFER esp_netif_deinit st
  if env.esp_event_loop_create_default ≠ .ok then (env.esp_event_loop_create_default, st) else
  let st := DEFER esp_event_loop_delete_default st
  if env.esp_wifi_init ≠ .ok then (env.esp_wifi_init, st) else
  let st := DEFER esp_wifi_deinit st
  if !env.esp_netif_create_wifi_ok then (.fail, st) else
  let st := DEFER sta_netif_destroy st
  if env.esp_wifi_set_default_wifi_sta_handlers ≠ .ok then
    (env.esp_wifi_set_default_wifi_sta_handlers, st) else
  let st := DEFER delete_default_wifi_driver_and_handlers st
  if env.esp_wifi_set_storage ≠ .ok then (env.esp_wifi_set_storage, st) else
  if env.esp_wifi_set_mode ≠ .ok then (env.esp_wifi_set_mode, st) else
  if env.esp_wifi_start ≠ .ok then (env.esp_wifi_start, st) else
  let st := DEFER esp_wifi_stop st
  if env.esp_wifi_get_max_tx_power ≠ .ok then (env.esp_wifi_get_max_tx_power, st) else
  (.ok, st)

/-- `mdns_start`: init (deferring `mdns_free`), hostname, instance name,
service registration. -/
def mdns_start (env : Env) (st : AppState) : EspErr × AppState :=
  if env.mdns_init ≠ .ok then (env.mdns_init, st) else
  let st := DEFER mdns_free st
  if env.mdns_hostname_set ≠ .ok then (env.mdns_hostname_set, st) else
  if env.mdns_instance_name_set ≠ .ok then (env.mdns_instance_name_set, st) else
  if env.mdns_service_add ≠ .ok then (env.mdns_service_add, st) else
  (.ok, st)

/-- `start_webserver`: `httpd_start` (deferring `stop_webserver`) then the four
URI handler registrations. -/
def start_webserver (env : Env) (st : AppState) : EspErr × AppState :=
  if env.httpd_start ≠ .ok then (env.httpd_start, st) else
  let st := DEFER stop_webserver st
  if env.httpd_register_root ≠ .ok then (env.httpd_register_root, st) else
  if env.httpd_register_index_html ≠ .ok then (env.httpd_register_index_html, st) else
  if env.httpd_register_api_led_on ≠ .ok then (env.httpd_register_api_led_on, st) else
  if env.httpd_register_api_led_off ≠ .ok then (env.httpd_register_api_led_off, st) else
  (.ok, st)

/-- `app_logic` (main.c lines 319–333): the staged step chain, every step
wrapped in `ESP_RETURN_ON_ERROR`. -/
def app_logic (env : Env) (st : AppState) : EspErr × AppState :=
  if env.make_etag ≠ .ok then (env.make_etag, st) else
  if gpio_init env ≠ .ok then (gpio_init env, st) else
  if env.gpio_set_level ≠ .ok then (env.gpio_set_level, st) else
  if nvs_init env ≠ .ok then (nvs_init env, st) else
  let r := wifi_init env st
  if r.1 ≠ .ok then r else
  if wifi_connect env ≠ .ok then (wifi_connect env, r.2) else
  let r2 := mdns_start env r.2
  if r2.1 ≠ .ok then r2 else
  let r3 := start_webserver env r2.2
  if r3.1 ≠ .ok then r3 else
  (.ok, r3.2)

/-- The state after `ESP_ERROR_CHECK(closer_create(&s_closer))` in `app_main`
(`ESP_ERROR_CHECK` aborts the program on failure, so the surviving path has a
successfully created, empty registry). -/
def appSt0 (env : Env) : AppState := ⟨(closer_create true true).2, env.allocs, []⟩

/-- `app_main` (main.c lines 335–344): create the registry, run `app_logic`;
on failure call `closer_close` then `closer_destroy`, on success return with
the registry retained. Returns the final state and the invoked actions. -/
def app_main (env : Env) : AppState × List Nat :=
  let r := app_logic env (appSt0 env)
  if r.1 ≠ .ok then
    let cl := closer_close r.2.s_closer
    let de := closer_destroy cl.2
    (⟨de.2, r.2.allocs, r.2.regs⟩, cl.1 ++ de.1)
  else (r.2, [])

/-- Run invariant for C3: no allocation outcome pending forces a failure, and
the registry's stack is exactly the registration trace reversed. -/
def AppInv (st : AppState) : Prop :=
  st.allocs = [] ∧ st.s_closer = some ⟨st.regs.reverse.map some⟩

theorem DEFER_AppInv (fn : Nat) (st : AppState) (h : AppInv st) : AppInv (DEFER fn st) := by
  obtain ⟨h1, h2⟩ := h
  refine ⟨?_, ?_⟩ <;> simp [DEFER, takeAlloc, h1, h2, closer_add]

theorem wifi_init_AppInv (env : Env) (st : AppState) (h : AppInv st) :
    AppInv (wifi_init env st).2 := by
  unfold wifi_init
  repeat' split
  all_goals dsimp only
  all_goals repeat first | exact h | apply DEFER_AppInv

theorem mdns_start_AppInv (env : Env) (st : AppState) (h : AppInv st) :
    AppInv (mdns_start env st).2 := by
  unfold mdns_start
  repeat' split
  all_goals dsimp only
  all_goals repeat first | exact h | apply DEFER_AppInv

theorem start_webserver_AppInv (env : Env) (st : AppState) (h : AppInv st) :
    AppInv (start_webserver env st).2 := by
  unfold start_webserver
  repeat' split
  all_goals dsimp only
  all_goals repeat first | exact h | apply DEFER_AppInv

theorem app_logic_AppInv (env : Env) (st : AppState) (h : AppInv st) :
    AppInv (app_logic env st).2 := by
  unfold app_logic
  dsimp only
  repeat' split
  all_goals try dsimp only
  all_goals first
    | exact h
    | exact wifi_init_AppInv env st h
    | exact mdns_start_AppInv env _ (wifi_init_AppInv env st h)
    | exact start_webserver_AppInv env _ (mdns_start_AppInv env _ (wifi_init_AppInv env st h))

/-- An initialization attempt in which every external call succeeds and every
allocation succeeds. -/
def envAllOk : Env where
  make_etag := .ok
  gpio_config := .ok
  gpio_set_level := .ok
  nvs_flash_init1 := .ok
  nvs_flash_erase := .ok
  nvs_flash_init2 := .ok
  esp_netif_init := .ok
  esp_event_loop_create_default := .ok
  esp_wifi_init := .ok
  esp_netif_create_wifi_ok := true
  esp_wifi_set_default_wifi_sta_handlers := .ok
  esp_wifi_set_storage := .ok
  esp_wifi_set_mode := .ok
  esp_wifi_start := .ok
  esp_wifi_get_max_tx_power := .ok
  esp_wifi_set_config := .ok
  esp_event_handler_register := .ok
  esp_wifi_connect := .ok
  got_ip_within_timeout := true
  mdns_init := .ok
  mdns_hostname_set := .ok
  mdns_instance_name_set := .ok
  mdns_service_add := .ok
  httpd_start := .ok
  httpd_register_root := .ok
  httpd_register_index_html := .ok
  httpd_register_api_led_on := .ok
  httpd_register_api_led_off := .ok
  allocs := []

/-- Like `envAllOk` but `esp_wifi_connect` fails (the `wifi_connect` step
aborts after all of `wifi_init`'s resources were acquired). -/
def envFailConnect : Env := { envAllOk with esp_wifi_connect := .err }

/-- Like `envAllOk` but the first `closer_add` allocation inside `DEFER` fails
(the registration of `esp_netif_deinit` after `esp_netif_init` succeeds). -/
def envAllocFail : Env := { envAllOk with allocs := [false] }

/-- Like `envAllocFail`, but the step after the failed registration also fails,
exposing that execution reached it. -/
def envAllocFailThenStop : Env :=
  { envAllOk with allocs := [false], esp_event_loop_create_default := .err }

/-- C3: in the staged initializer, for any run in which all `closer_add`
allocations succeed — when any step of `app_logic` fails, `app_main` invokes
the registry's close, releasing exactly the resources registered by the prior
steps in exactly the reverse of their registration (= acquisition) order, and
the registry is then destroyed; when all steps succeed, `app_main` invokes
nothing and the registry is retained, still holding every registered action. -/
theorem app_main_staged_unwind (env : Env) (hA : env.allocs = []) :
    ((app_logic env (appSt0 env)).1 ≠ .ok →
      (app_main env).2 = (app_logic env (appSt0 env)).2.regs.reverse ∧
      (app_main env).1.s_closer = none) ∧
    ((app_logic env (appSt0 env)).1 = .ok →
      (app_main env).2 = [] ∧
      (app_main env).1.s_closer =
        some ⟨(app_logic env (appSt0 env)).2.regs.reverse.map some⟩) := by
  have h0 : AppInv (appSt0 env) := by
    refine ⟨hA, ?_⟩
    simp [appSt0, closer_create]
  obtain ⟨h1, h2⟩ := app_logic_AppInv env (appSt0 env) h0
  constructor
  · intro hne
    simp only [app_main]
    rw [if_pos hne]
    refine ⟨?_, ?_⟩ <;>
      simp [h2, closer_close, closer_destroy, closeLoop, closeLoop_map_some,
        closeLoop_map_some_reverse]
  · intro heq
    have hne : ¬((app_logic env (appSt0 env)).1 ≠ EspErr.ok) := by simp [heq]
    simp only [app_main]
    rw [if_neg hne]
    exact ⟨rfl, h2⟩

/-- Witness for C3: with `esp_wifi_connect` failing after `wifi_init`
succeeded, the unwind invokes exactly the six registered cleanups in reverse
acquisition order and destroys the registry. -/
theorem app_main_staged_unwind_witness :
    (app_main envFailConnect).2 =
      (app_logic envFailConnect (appSt0 envFailConnect)).2.regs.reverse ∧
    (app_main envFailConnect).1.s_closer = none ∧
    (app_main envFailConnect).2 =
      [esp_wifi_stop, delete_default_wifi_driver_and_handlers, sta_netif_destroy,
       esp_wifi_deinit, esp_event_loop_delete_default, esp_netif_deinit] := by
  obtain ⟨w1, w2⟩ := (app_main_staged_unwind envFailConnect rfl).1 (by decide)
  exact ⟨w1, w2, by decide⟩

/-- C4 counterexample: with the first `DEFER` allocation failing (registration
of `esp_netif_deinit`) and every other call succeeding, the staged initializer
neither releases the just-acquired resource nor aborts: `app_logic` still
returns `ESP_OK`, the action was never registered, and no cleanup is ever
invoked — the claimed local handling does not happen. -/
theorem staged_init_registration_failure_cx :
    (app_logic envAllocFail (appSt0 envAllocFail)).1 = .ok ∧
    esp_netif_deinit ∉ (app_logic envAllocFail (appSt0 envAllocFail)).2.regs ∧
    (app_main envAllocFail).2 = [] := by
  exact ⟨by decide, by decide, by decide⟩

/-- C4 amended: a registration failure in the staged initializer is ignored,
not handled — `DEFER` (`CLOSER_DEFER`) discards `closer_add`'s result, so when
the allocation fails the registry is left unchanged, the action stays
unregistered, and execution continues with the next step rather than
aborting (here the next step's own failure code is what gets returned). -/
theorem defer_registration_failure_ignored (env : Env) (rest : List Bool)
    (h1 : env.esp_netif_init = .ok)
    (h2 : env.allocs = false :: rest)
    (h3 : env.esp_event_loop_create_default = .err) :
    (wifi_init env (appSt0 env)).1 = .err ∧
    (wifi_init env (appSt0 env)).2.regs = [] ∧
    (wifi_init env (appSt0 env)).2.s_closer = some ⟨[]⟩ := by
  unfold wifi_init
  simp [appSt0, closer_create, h1, h2, h3, DEFER, takeAlloc, closer_add]

/-- Witness for the amended C4 at a concrete environment. -/
theorem defer_registration_failure_ignored_witness :
    (wifi_init envAllocFailThenStop (appSt0 envAllocFailThenStop)).1 = .err ∧
    (wifi_init envAllocFailThenStop (appSt0 envAllocFailThenStop)).2.regs = [] ∧
    (wifi_init envAllocFailThenStop (appSt0 envAllocFailThenStop)).2.s_closer = some ⟨[]⟩ :=
  defer_registration_failure_ignored envAllocFailThenStop [] rfl rfl rfl
